import Mathlib

/-!
Verification of the fraud-detection core of the URL-shortener repository.

The definitions below are a shallow embedding of:
* `src/components/UrlShortener.tsx` — class `AdvancedFraudDetector` (the
  pattern detectors, the ML-style numeric anomaly score, and the aggregator
  `performComprehensiveDetection`);
* `src/lib/fraudDetection.ts` — `detectSuspiciousFingerprint`,
  `performFraudDetection`, `checkAdvancedRateLimit`;
* `src/lib/fingerprint.ts` — `checkRateLimit`, `logRiskEvent`;
* `supabase-complete-schema.sql` — `calculate_risk_score`, `check_rate_limit`
  and the `update_risk_score` trigger.

The Supabase store is modelled as an explicit record of table rows; JS
`number` arithmetic is modelled with exact rationals (`ℚ`); JSON values that
the code distinguishes as `undefined` / `null` / number are modelled with an
explicit three-valued type.  Timestamps are integers (milliseconds), matching
the `Date.getTime()` arithmetic of the source.  IEEE-754 double rounding is
NOT modelled: the rational semantics agrees with the program on every
comparison whose operands stay clear of a representation boundary (integer
risk sums, counts, the 0.8 referrer ratio), but properties that hinge on
rounding at a comparison boundary (such as `0.3 + 3 * 0.1 > 0.6` in doubles)
are outside the scope of this embedding.
-/

/-- JS `Array.from(new Set(xs))`: deduplicate keeping the first occurrence of
each element, preserving insertion order. -/
def jsDedup : List String → List String
  | [] => []
  | a :: l => a :: jsDedup (l.filter (fun b => decide (b ≠ a)))
termination_by l => l.length
decreasing_by
  simp only [List.length_cons, Nat.lt_succ_iff]
  exact List.length_filter_le _ _

theorem mem_jsDedup (x : String) : ∀ (l : List String), x ∈ jsDedup l ↔ x ∈ l := by
  intro l
  induction l using jsDedup.induct with
  | case1 => simp [jsDedup]
  | case2 a l ih =>
    by_cases hxa : x = a
    · simp [jsDedup, hxa]
    · simp only [jsDedup, List.mem_cons, hxa, false_or]
      rw [ih]
      simp [List.mem_filter, hxa]

theorem nodup_jsDedup : ∀ (l : List String), (jsDedup l).Nodup := by
  intro l
  induction l using jsDedup.induct with
  | case1 => simp [jsDedup]
  | case2 a l ih =>
    simp only [jsDedup, List.nodup_cons]
    refine ⟨?_, ih⟩
    rw [mem_jsDedup]
    simp [List.mem_filter]

/-- Check that `pat` occurs as a prefix of `t` (over character lists). -/
def tokenAt : List Char → List Char → Bool
  | [], _ => true
  | _ :: _, [] => false
  | c :: cs, d :: ds => c = d && tokenAt cs ds

/-- JS `s.includes(pat)`: substring containment. -/
def containsTok (s pat : String) : Bool :=
  s.toList.tails.any (fun t => tokenAt pat.toList t)

/-- A JS string-typed value is falsy when it is `null`/`undefined` or `""`. -/
def strFalsy (o : Option String) : Bool :=
  decide (o = none ∨ o = some "")

/-- JS `a || b || ''` over two possibly-missing strings. -/
def jsStrOr (a b : Option String) : String :=
  if strFalsy a then (if strFalsy b then "" else b.getD "") else a.getD ""

/-- A JSON numeric field as the JS code sees it: absent key (`undefined`),
explicit `null`, or a number.  `device_info` is a schemaless JSONB column, so
all three occur; the code distinguishes them (`x === null` is false for an
absent key, while `x || 0` coerces both to `0`). -/
inductive JsNum where
  | undef : JsNum
  | null : JsNum
  | num : ℚ → JsNum
deriving DecidableEq, Repr

/-- JS `x || 0` on a numeric JSON field. -/
def jsNumOr0 : JsNum → ℚ
  | .num q => q
  | _ => 0

/-- The `device_info` JSONB blob of a `fingerprints` row, restricted to the
fields the detectors read.  `screenRes` models the `"WxH"` string already
split by `split('x').map(Number)`; `none` is a missing/empty field. -/
structure DeviceInfo where
  canvas : Option String
  webgl : Option String
  audio : Option String
  plugins : Option (List String)
  screenRes : Option (Nat × Nat)
  hardwareConcurrency : JsNum
  deviceMemory : JsNum
  touchSupport : Option Bool
  userAgent : Option String
  platform : Option String
  mobile : Option Bool
  webdriver : Option Bool
  phantom : Option Bool
  selenium : Option Bool
  headless : Option Bool
  automation : Option Bool
deriving DecidableEq, Repr

/-- The `browser_info.capabilities` sub-object, restricted to the flags the
detectors read. -/
structure Capabilities where
  webgl : Bool
  webgl2 : Bool
  localStorage : Bool
  sessionStorage : Bool
deriving DecidableEq, Repr

/-- The `browser_info` JSONB blob of a `fingerprints` row. -/
structure BrowserInfo where
  userAgent : Option String
  platform : Option String
  capabilities : Option Capabilities
deriving DecidableEq, Repr

/-- A row of the `fingerprints` table (an Identity). -/
structure Fingerprint where
  fid : Nat
  visitorId : String
  deviceInfo : Option DeviceInfo
  browserInfo : Option BrowserInfo
  riskScore : ℚ
deriving DecidableEq, Repr

/-- A row of the `urls` table. -/
structure UrlRec where
  fingerprintId : Nat
  createdAt : Int
  isActive : Bool
deriving DecidableEq, Repr

/-- A row of the `url_visits` table. -/
structure VisitRec where
  fingerprintId : Nat
  urlId : Nat
  visitedAt : Int
  referrer : Option String
deriving DecidableEq, Repr

/-- A row of the `risk_logs` table (a RiskEvent). -/
structure RiskLog where
  fingerprintId : Nat
  riskType : String
  severity : Nat
  createdAt : Int
deriving DecidableEq, Repr

/-- The Supabase store, as the detectors see it: a point-in-time snapshot of
the four tables they query.  Lists keep insertion order (the source queries
have no `ORDER BY`). -/
structure Store where
  fingerprints : List Fingerprint
  urls : List UrlRec
  visits : List VisitRec
  riskLogs : List RiskLog
deriving DecidableEq, Repr

/-- `FraudDetectionResult` of `UrlShortener.tsx`; `mlScore` is optional there
and only set by the aggregator. -/
structure FraudDetectionResult where
  isSuspicious : Bool
  riskScore : ℚ
  reasons : List String
  severity : Nat
  confidence : ℚ
  patterns : List String
  mlScore : Option ℚ
deriving DecidableEq, Repr

/-- `AnomalyDetectionResult` of `UrlShortener.tsx`, restricted to the fields
consumed downstream (`features`/`explanation` are diagnostic only). -/
structure AnomalyDetectionResult where
  isAnomaly : Bool
  anomalyScore : ℚ
deriving DecidableEq, Repr

/-- `AdvancedFraudDetector.createEmptyResult`. -/
def createEmptyResult : FraudDetectionResult :=
  { isSuspicious := false, riskScore := 0, reasons := [], severity := 1
    confidence := 0, patterns := [], mlScore := none }

/-- `supabase.from('fingerprints').select(...).eq('id', fingerprintId).single()`. -/
def findFingerprint (s : Store) (fpId : Nat) : Option Fingerprint :=
  s.fingerprints.find? (fun f => decide (f.fid = fpId))

/-- The `.or(device_info->canvas.eq...,device_info->webgl.eq...,device_info->audio.eq...)`
match used by the similar-device query of `detectMultiAccountReuse`. -/
def matchesDevice (di : DeviceInfo) (g : Fingerprint) : Bool :=
  match g.deviceInfo with
  | none => false
  | some gi => decide (gi.canvas = di.canvas ∨ gi.webgl = di.webgl ∨ gi.audio = di.audio)

/-- Number of *other* fingerprints sharing this fingerprint's `visitor_id`. -/
def duplicateCountOf (s : Store) (fp : Fingerprint) (fpId : Nat) : Nat :=
  (s.fingerprints.filter (fun g => decide (g.visitorId = fp.visitorId ∧ g.fid ≠ fpId))).length

/-- Number of *other* fingerprints matching on a canvas/webgl/audio sub-signature. -/
def similarCountOf (s : Store) (di : DeviceInfo) (fpId : Nat) : Nat :=
  (s.fingerprints.filter (fun g => decide (g.fid ≠ fpId) && matchesDevice di g)).length

/-- `AdvancedFraudDetector.detectMultiAccountReuse`. -/
def detectMultiAccountReuse (s : Store) (fpId : Nat) : FraudDetectionResult :=
  match findFingerprint s fpId with
  | none => createEmptyResult
  | some fp =>
    let dupCount := duplicateCountOf s fp fpId
    let hasDup := 0 < dupCount
    let simFires :=
      match fp.deviceInfo with
      | none => false
      | some di => 2 < similarCountOf s di fpId
    let simCount :=
      match fp.deviceInfo with
      | none => 0
      | some di => similarCountOf s di fpId
    let riskScore : ℚ := (if hasDup then 4 else 0) + (if simFires then 3 else 0)
    let severity : Nat := max (if hasDup then max 1 4 else 1) (if simFires then 3 else 1)
    { isSuspicious := riskScore > 2
      riskScore := riskScore
      reasons :=
        (if hasDup then ["Duplicate fingerprint detected: " ++ toString (dupCount + 1) ++ " instances"] else []) ++
        (if simFires then ["Similar device signatures across " ++ toString simCount ++ " fingerprints"] else [])
      severity := severity
      confidence := min (riskScore / 10) 1
      patterns :=
        (if hasDup then ["duplicate_fingerprint"] else []) ++
        (if simFires then ["similar_device_signature"] else [])
      mlScore := none }

/-- The inter-arrival gaps `t_i - t_(i-1)` (for `i ≥ 1`) of a timestamp list. -/
def interGaps (ts : List Int) : List Int :=
  ts.tail.zipWith (fun b a => b - a) ts

/-- The `timeGaps`/`rapidClicks` index-map of the source: index `0` maps to a
gap of `0`, index `i ≥ 1` to `t_i - t_(i-1)`. -/
def jsTimeGaps (ts : List Int) : List Int :=
  match ts with
  | [] => []
  | _ :: _ => 0 :: interGaps ts

/-- The `url_creation` timestamps of the trailing hour
(`.eq('fingerprint_id', ...)` and `.gte('created_at', now - 1h)`). -/
def recentUrlTimes (s : Store) (fpId : Nat) (now : Int) : List Int :=
  (s.urls.filter (fun u => decide (u.fingerprintId = fpId ∧ now - 3600000 ≤ u.createdAt))).map
    (fun u => u.createdAt)

/-- The `timeGaps.length` of `detectHighVelocity`: entries of the index-gap
map under one minute (index 0 always contributes its constant `0` gap). -/
def burstGapCount (ts : List Int) : Nat :=
  ((jsTimeGaps ts).filter (fun g => decide (g < 60000))).length

/-- `AdvancedFraudDetector.detectHighVelocity`. -/
def detectHighVelocity (s : Store) (fpId : Nat) (now : Int) : FraudDetectionResult :=
  let ts := recentUrlTimes s fpId now
  let urlCount := ts.length
  let tierScore : ℚ := if 20 < urlCount then 4 else if 10 < urlCount then 3 else
    if 5 < urlCount then 2 else 0
  let tierSev : Nat := if 20 < urlCount then 4 else if 10 < urlCount then 3 else
    if 5 < urlCount then 2 else 1
  let gapsCount := burstGapCount ts
  let burst := 3 < gapsCount
  let riskScore : ℚ := tierScore + (if burst then 2 else 0)
  { isSuspicious := riskScore > 1
    riskScore := riskScore
    reasons :=
      (if 20 < urlCount then ["Extreme URL creation velocity: " ++ toString urlCount ++ " URLs/hour"]
       else if 10 < urlCount then ["High URL creation velocity: " ++ toString urlCount ++ " URLs/hour"]
       else if 5 < urlCount then ["Moderate URL creation velocity: " ++ toString urlCount ++ " URLs/hour"]
       else []) ++
      (if burst then ["Burst pattern detected: " ++ toString gapsCount ++ " URLs created within 1-minute intervals"] else [])
    severity := if burst then max tierSev 2 else tierSev
    confidence := min (riskScore / 10) 1
    patterns :=
      (if 20 < urlCount then ["extreme_velocity"]
       else if 10 < urlCount then ["high_velocity"]
       else if 5 < urlCount then ["moderate_velocity"]
       else []) ++
      (if burst then ["burst_pattern"] else [])
    mlScore := none }

/-- The visits of the trailing 24 hours for a fingerprint. -/
def recentVisits (s : Store) (fpId : Nat) (now : Int) : List VisitRec :=
  s.visits.filter (fun v => decide (v.fingerprintId = fpId ∧ now - 86400000 ≤ v.visitedAt))

/-- The `rapidClicks.length` of `detectClickFraud`: adjacent visit pairs
(index `> 0`) under five seconds apart. -/
def rapidClickCount (visits : List VisitRec) : Nat :=
  ((interGaps (visits.map (fun v => v.visitedAt))).filter (fun g => decide (g < 5000))).length

/-- The `directAccess.length` of `detectClickFraud`: visits with a falsy
(`null`/empty) referrer. -/
def directAccessCount (visits : List VisitRec) : Nat :=
  (visits.filter (fun v => strFalsy v.referrer)).length

/-- `AdvancedFraudDetector.detectClickFraud`. -/
def detectClickFraud (s : Store) (fpId : Nat) (now : Int) : FraudDetectionResult :=
  let visits := recentVisits s fpId now
  let visitCount := visits.length
  if 0 < visitCount then
    let vol := 100 < visitCount
    let rapidCount := rapidClickCount visits
    let rapid := 5 < rapidCount
    let directCount := directAccessCount visits
    let direct := (visitCount : ℚ) * (8 / 10) < (directCount : ℚ)
    let riskScore : ℚ := (if vol then 3 else 0) + (if rapid then 2 else 0) + (if direct then 2 else 0)
    { isSuspicious := riskScore > 1
      riskScore := riskScore
      reasons :=
        (if vol then ["High visit volume: " ++ toString visitCount ++ " visits in 24h"] else []) ++
        (if rapid then ["Rapid clicking pattern: " ++ toString rapidCount ++ " clicks within 5-second intervals"] else []) ++
        (if direct then ["High direct access rate: " ++ toString (round ((directCount : ℚ) / (visitCount : ℚ) * 100)) ++ "%"] else [])
      severity := max (max (if vol then 3 else 1) (if rapid then 2 else 1)) (if direct then 2 else 1)
      confidence := min (riskScore / 10) 1
      patterns :=
        (if vol then ["high_visit_volume"] else []) ++
        (if rapid then ["rapid_clicking"] else []) ++
        (if direct then ["direct_access"] else [])
      mlScore := none }
  else
    { isSuspicious := false, riskScore := 0, reasons := [], severity := 1
      confidence := 0, patterns := [], mlScore := none }

/-- `AdvancedFraudDetector.detectBotSignals`. -/
def detectBotSignals (s : Store) (fpId : Nat) : FraudDetectionResult :=
  match findFingerprint s fpId with
  | none => createEmptyResult
  | some fp =>
    match fp.deviceInfo with
    | none =>
      { isSuspicious := false, riskScore := 0, reasons := [], severity := 1
        confidence := min (0 / 10) 1, patterns := [], mlScore := none }
    | some di =>
      let wd := di.webdriver = some true
      let ph := di.phantom = some true
      let se := di.selenium = some true
      let hl := di.headless = some true
      let au := di.automation = some true
      let noHw := di.hardwareConcurrency = .num 0 ∨ di.hardwareConcurrency = .null
      let noMem := di.deviceMemory = .num 0 ∨ di.deviceMemory = .null
      let noPlug := di.plugins = none ∨ di.plugins = some []
      let riskScore : ℚ :=
        (if wd then 4 else 0) + (if ph then 4 else 0) + (if se then 4 else 0) +
        (if hl then 3 else 0) + (if au then 3 else 0) +
        (if noHw then 2 else 0) + (if noMem then 2 else 0) + (if noPlug then 1 else 0)
      { isSuspicious := riskScore > 0
        riskScore := riskScore
        reasons :=
          (if wd then ["WebDriver automation detected"] else []) ++
          (if ph then ["PhantomJS detected"] else []) ++
          (if se then ["Selenium automation detected"] else []) ++
          (if hl then ["Headless browser detected"] else []) ++
          (if au then ["Browser automation detected"] else []) ++
          (if noHw then ["Missing hardware concurrency information"] else []) ++
          (if noMem then ["Missing device memory information"] else []) ++
          (if noPlug then ["No browser plugins detected"] else [])
        severity :=
          max (max (max (max (max (max (max (if wd then 4 else 1) (if ph then 4 else 1))
            (if se then 4 else 1)) (if hl then 3 else 1)) (if au then 3 else 1))
            (if noHw then 2 else 1)) (if noMem then 2 else 1)) 1
        confidence := min (riskScore / 10) 1
        patterns :=
          (if wd then ["webdriver"] else []) ++
          (if ph then ["phantomjs"] else []) ++
          (if se then ["selenium"] else []) ++
          (if hl then ["headless"] else []) ++
          (if au then ["automation"] else []) ++
          (if noHw then ["missing_hardware"] else []) ++
          (if noMem then ["missing_memory"] else []) ++
          (if noPlug then ["no_plugins"] else [])
        mlScore := none }

/-- `AdvancedFraudDetector.detectDeviceAnomalies`. -/
def detectDeviceAnomalies (s : Store) (fpId : Nat) : FraudDetectionResult :=
  match findFingerprint s fpId with
  | none => createEmptyResult
  | some fp =>
    match fp.deviceInfo, fp.browserInfo with
    | some di, some bi =>
      let ua := jsStrOr di.userAgent bi.userAgent
      let pf := jsStrOr di.platform bi.platform
      let mis := di.mobile = some true ∧ containsTok pf.toLower "win" = true
      let tch := di.touchSupport = some true ∧ containsTok ua.toLower "mobile" = false ∧
        containsTok ua.toLower "android" = false
      let res :=
        match di.screenRes with
        | some (w, h) => decide (w < 800 ∨ h < 600)
        | none => false
      let noWebgl :=
        match bi.capabilities with
        | some c => decide (c.webgl = false ∧ c.webgl2 = false)
        | none => false
      let noStorage :=
        match bi.capabilities with
        | some c => decide (c.localStorage = false ∨ c.sessionStorage = false)
        | none => false
      let riskScore : ℚ :=
        (if mis then 2 else 0) + (if tch then 1 else 0) + (if res then 1 else 0) +
        (if noWebgl then 1 else 0) + (if noStorage then 1 else 0)
      { isSuspicious := riskScore > 0
        riskScore := riskScore
        reasons :=
          (if mis then ["Mobile browser on Windows platform"] else []) ++
          (if tch then ["Touch support without mobile indicators"] else []) ++
          (if res then ["Unusual screen resolution"] else []) ++
          (if noWebgl then ["WebGL not supported"] else []) ++
          (if noStorage then ["Storage APIs not supported"] else [])
        severity := max (max (max (max (if mis then 2 else 1) 1) 1) 1) 1
        confidence := min (riskScore / 10) 1
        patterns :=
          (if mis then ["mobile_desktop_mismatch"] else []) ++
          (if tch then ["touch_mismatch"] else []) ++
          (if res then ["unusual_resolution"] else []) ++
          (if noWebgl then ["no_webgl"] else []) ++
          (if noStorage then ["no_storage"] else [])
        mlScore := none }
    | _, _ =>
      { isSuspicious := false, riskScore := 0, reasons := [], severity := 1
        confidence := min (0 / 10) 1, patterns := [], mlScore := none }

/-- Number of `true` automation flags among the five numeric bot features. -/
def botSignalCount (di : DeviceInfo) : Nat :=
  (if di.webdriver = some true then 1 else 0) + (if di.phantom = some true then 1 else 0) +
  (if di.selenium = some true then 1 else 0) + (if di.headless = some true then 1 else 0) +
  (if di.automation = some true then 1 else 0)

/-- `AdvancedFraudDetector.detectMLAnomalies`: the rule-based numeric anomaly
score.  Each component mirrors one `anomalyScore +=` of the source; a feature
read from an absent object is JS `undefined`, whose comparisons are all false,
which is why each component is guarded on the object being present. -/
def detectMLAnomalies (s : Store) (fpId : Nat) : AnomalyDetectionResult :=
  match findFingerprint s fpId with
  | none => { isAnomaly := false, anomalyScore := 0 }
  | some fp =>
    let hwScore : ℚ :=
      match fp.deviceInfo with
      | some di =>
        if jsNumOr0 di.hardwareConcurrency = 0 ∧ jsNumOr0 di.deviceMemory = 0 then 3 / 10 else 0
      | none => 0
    let botScore : ℚ :=
      match fp.deviceInfo with
      | some di => if 0 < botSignalCount di then (botSignalCount di : ℚ) * (2 / 10) else 0
      | none => 0
    let screenScore : ℚ :=
      match fp.deviceInfo with
      | some di =>
        match di.screenRes with
        | some (w, h) => if 0 < w * h ∧ w * h < 480000 then 2 / 10 else 0
        | none => 0
      | none => 0
    let missingCount : Nat :=
      match fp.browserInfo with
      | some bi =>
        match bi.capabilities with
        | some c =>
          (if c.webgl then 0 else 1) + (if c.localStorage then 0 else 1) +
          (if c.sessionStorage then 0 else 1)
        | none => 3
      | none => 3
    let missingScore : ℚ := if 1 < missingCount then (missingCount : ℚ) * (1 / 10) else 0
    let raw : ℚ := hwScore + botScore + screenScore + missingScore
    { isAnomaly := raw > 1 / 2, anomalyScore := min raw 1 }

/-- The result-combination step of
`AdvancedFraudDetector.performComprehensiveDetection` (lines 888-931): sum the
five detector risk scores plus `anomalyScore * 5` capped at 10, take the
maximum severity, dedupe reasons and patterns, `confidence = min(total/10, 1)`,
`isSuspicious = totalRiskScore > 3`. -/
def combineDetections (ma v cf bot da : FraudDetectionResult)
    (ml : AnomalyDetectionResult) : FraudDetectionResult :=
  let allReasons := ma.reasons ++ v.reasons ++ cf.reasons ++ bot.reasons ++ da.reasons
  let allPatterns := ma.patterns ++ v.patterns ++ cf.patterns ++ bot.patterns ++ da.patterns
  let totalRiskScore : ℚ :=
    min (ma.riskScore + v.riskScore + cf.riskScore + bot.riskScore + da.riskScore +
      ml.anomalyScore * 5) 10
  let maxSeverity := max ma.severity (max v.severity (max cf.severity (max bot.severity da.severity)))
  { isSuspicious := totalRiskScore > 3
    riskScore := totalRiskScore
    reasons := jsDedup allReasons
    severity := maxSeverity
    confidence := min (totalRiskScore / 10) 1
    patterns := jsDedup allPatterns
    mlScore := some ml.anomalyScore }

/-- `AdvancedFraudDetector.performComprehensiveDetection`: run the six
detectors on the same snapshot and combine. -/
def performComprehensiveDetection (s : Store) (fpId : Nat) (now : Int) : FraudDetectionResult :=
  combineDetections
    (detectMultiAccountReuse s fpId)
    (detectHighVelocity s fpId now)
    (detectClickFraud s fpId now)
    (detectBotSignals s fpId)
    (detectDeviceAnomalies s fpId)
    (detectMLAnomalies s fpId)

/-- `calculate_risk_score` of `supabase-complete-schema.sql`. -/
def calculate_risk_score (s : Store) (fpId : Nat) (now : Int) : Nat :=
  let urlCount := (s.urls.filter (fun u => decide (u.fingerprintId = fpId ∧ u.isActive = true))).length
  let c1 := if 20 < urlCount then 3 else if 10 < urlCount then 2 else if 5 < urlCount then 1 else 0
  let visitCount := (s.visits.filter (fun v => decide (v.fingerprintId = fpId))).length
  let c2 := if 200 < visitCount then 3 else if 100 < visitCount then 2 else
    if 50 < visitCount then 1 else 0
  let riskLogCount := (s.riskLogs.filter (fun r => decide (r.fingerprintId = fpId))).length
  let dupCount : Nat :=
    match findFingerprint s fpId with
    | some fp => (s.fingerprints.filter (fun g => decide (g.visitorId = fp.visitorId))).length
    | none => 0
  let c4 := if 1 < dupCount then 4 else 0
  let rapidCount := (s.urls.filter
    (fun u => decide (u.fingerprintId = fpId ∧ now - 3600000 < u.createdAt))).length
  let c5 := if 5 < rapidCount then 2 else 0
  let recentLogCount := (s.riskLogs.filter
    (fun r => decide (r.fingerprintId = fpId ∧ now - 86400000 < r.createdAt))).length
  let c6 := if 3 < recentLogCount then 2 else 0
  min (c1 + c2 + riskLogCount + c4 + c5 + c6) 10

/-- The per-row action of the `update_risk_score` trigger: overwrite the
`risk_score` column of the row whose id is `fpId`. -/
def scoreUpd (fpId : Nat) (q : ℚ) (f : Fingerprint) : Fingerprint :=
  if f.fid = fpId then { f with riskScore := q } else f

/-- The `update_risk_score` database trigger applied after an insert touching
`fpId`: recompute and store the fingerprint's `risk_score` column. -/
def applyRiskScoreTrigger (s : Store) (fpId : Nat) (now : Int) : Store :=
  { s with fingerprints := s.fingerprints.map (scoreUpd fpId (calculate_risk_score s fpId now : ℚ)) }

/-- The write-back of `performComprehensiveDetection`: when the result is
suspicious, `logRiskEvent` inserts one row into `risk_logs` (which fires the
`update_risk_score` trigger); otherwise the store is untouched. -/
def comprehensiveDetectionStep (s : Store) (fpId : Nat) (now : Int) : Store :=
  let r := performComprehensiveDetection s fpId now
  if r.isSuspicious then
    let s1 := { s with riskLogs := s.riskLogs ++
      [{ fingerprintId := fpId, riskType := "comprehensive_fraud_detection"
         severity := r.severity, createdAt := now }] }
    applyRiskScoreTrigger s1 fpId now
  else s

/-- `FraudDetectionResult` of `fraudDetection.ts` (no confidence/patterns). -/
structure BasicResult where
  isSuspicious : Bool
  riskScore : ℚ
  reasons : List String
  severity : Nat
deriving DecidableEq, Repr

/-- `detectSuspiciousFingerprint` of `fraudDetection.ts`. -/
def detectSuspiciousFingerprint (s : Store) (fpId : Nat) (now : Int) : BasicResult :=
  let urlCount := (s.urls.filter (fun u => decide (u.fingerprintId = fpId))).length
  let volScore : ℚ := if 10 < urlCount then 3 else if 5 < urlCount then 1 else 0
  let volReasons :=
    if 10 < urlCount then ["High volume URL creation: " ++ toString urlCount ++ " URLs"]
    else if 5 < urlCount then ["Moderate URL creation: " ++ toString urlCount ++ " URLs"]
    else []
  let volSev : Nat := if 10 < urlCount then 3 else 1
  let recentCount := (s.urls.filter
    (fun u => decide (u.fingerprintId = fpId ∧ now - 3600000 ≤ u.createdAt))).length
  let rapid := 5 < recentCount
  let dupFires : Bool :=
    match findFingerprint s fpId with
    | some fp => decide (1 < (s.fingerprints.filter (fun g => decide (g.visitorId = fp.visitorId))).length)
    | none => false
  let dupCount : Nat :=
    match findFingerprint s fpId with
    | some fp => (s.fingerprints.filter (fun g => decide (g.visitorId = fp.visitorId))).length
    | none => 0
  let visitCount := (s.visits.filter
    (fun v => decide (v.fingerprintId = fpId ∧ now - 3600000 ≤ v.visitedAt))).length
  let highVisits := 50 < visitCount
  let recentLogs := s.riskLogs.filter
    (fun r => decide (r.fingerprintId = fpId ∧ now - 86400000 ≤ r.createdAt))
  let logCount := recentLogs.length
  let maxLogSev := recentLogs.foldr (fun r acc => max r.severity acc) 0
  let riskScore : ℚ := volScore + (if rapid then 2 else 0) + (if dupFires then 4 else 0) +
    (if highVisits then 2 else 0) + (logCount : ℚ)
  { isSuspicious := riskScore > 2
    riskScore := riskScore
    reasons := volReasons ++
      (if rapid then ["Rapid URL creation: " ++ toString recentCount ++ " in last hour"] else []) ++
      (if dupFires then ["Duplicate fingerprint detected: " ++ toString dupCount ++ " instances"] else []) ++
      (if highVisits then ["High visit volume: " ++ toString visitCount ++ " visits in last hour"] else []) ++
      (if 0 < logCount then ["Previous risk events: " ++ toString logCount ++ " in last 24h"] else [])
    severity :=
      max (max (max (max volSev (if rapid then 2 else 1)) (if dupFires then 4 else 1))
        (if highVisits then 2 else 1)) (if 0 < logCount then maxLogSev else 1) }

/-- `performFraudDetection` of `fraudDetection.ts`.  `detectSuspiciousUrls`
is a pure function of the submitted URL string alone (browser `URL` parsing
and regexes); its result enters here as the opaque pure input `urlRes`. -/
def performFraudDetection (urlRes : BasicResult) (s : Store) (fpId : Nat) (now : Int) : BasicResult :=
  let fpRes := detectSuspiciousFingerprint s fpId now
  let combinedRiskScore := urlRes.riskScore + fpRes.riskScore
  { isSuspicious := combinedRiskScore > 2
    riskScore := combinedRiskScore
    reasons := urlRes.reasons ++ fpRes.reasons
    severity := max urlRes.severity fpRes.severity }

/-- The write-back of `performFraudDetection`: when suspicious, `logRiskEvent`
inserts one `risk_logs` row (firing the `update_risk_score` trigger). -/
def fraudDetectionStep (urlRes : BasicResult) (s : Store) (fpId : Nat) (now : Int) : Store :=
  let r := performFraudDetection urlRes s fpId now
  if r.isSuspicious then
    let s1 := { s with riskLogs := s.riskLogs ++
      [{ fingerprintId := fpId, riskType := "comprehensive_fraud_detection"
         severity := r.severity, createdAt := now }] }
    applyRiskScoreTrigger s1 fpId now
  else s

/-- The single `rate_limits` row for one `(fingerprint_id, action_type)` key:
`(attempts, window_start)`, or `none` when absent.  The table has a UNIQUE
constraint on the key, so one row suffices. -/
def RateRow : Type := Option (Nat × Int)

/-- `check_rate_limit` of `supabase-complete-schema.sql`: delete the row if
its window has fully elapsed, deny without writing when `attempts` has reached
`max_attempts`, otherwise upsert with `attempts + 1` (a fresh row starts with
`attempts = 1`, `window_start = NOW()`). -/
def check_rate_limit (row : RateRow) (maxAttempts : Nat) (window now : Int) :
    Bool × RateRow :=
  let cleaned : RateRow :=
    match row with
    | some (a, w) => if w < now - window then none else some (a, w)
    | none => none
  let current : Nat :=
    match cleaned with
    | some (a, _) => a
    | none => 0
  if maxAttempts ≤ current then (false, cleaned)
  else
    match cleaned with
    | none => (true, some (1, now))
    | some (a, w) => (true, some (a + 1, if w < now - window then now else w))

/-- Repeated `check_rate_limit` calls at the given times, collecting results. -/
def runRateLimit (calls : List Int) (maxAttempts : Nat) (window : Int) (row : RateRow) :
    List Bool × RateRow :=
  match calls with
  | [] => ([], row)
  | t :: rest =>
    let (b, row1) := check_rate_limit row maxAttempts window t
    let (bs, rowN) := runRateLimit rest maxAttempts window row1
    (b :: bs, rowN)

/-- `checkRateLimit` of `fingerprint.ts`: returns the RPC's data, and `false`
on an RPC error or a thrown exception (both are the `Except.error` case). -/
def checkRateLimit (rpc : Except String Bool) : Bool :=
  match rpc with
  | .error _ => false
  | .ok b => b

/-- The `maxAttempts`/`windowMinutes` pair of `checkAdvancedRateLimit`. -/
structure Limits where
  maxAttempts : Nat
  windowMinutes : Nat
deriving DecidableEq, Repr

/-- The default-or-custom limits of `checkAdvancedRateLimit`. -/
def advancedLimits (actionType : String) (custom : Option Limits) : Limits :=
  match custom with
  | some l => l
  | none =>
    { maxAttempts := if actionType = "url_creation" then 10 else 100
      windowMinutes := if actionType = "url_creation" then 60 else 5 }

/-- `checkAdvancedRateLimit` of `fraudDetection.ts`: resolve the limits, call
the `check_rate_limit` RPC, return `false` on error or exception. -/
def checkAdvancedRateLimit (actionType : String) (custom : Option Limits)
    (rpc : Limits → Except String Bool) : Bool :=
  match rpc (advancedLimits actionType custom) with
  | .error _ => false
  | .ok b => b

/-- C9: both rate-limit wrappers return `false` (deny) whenever the store call
errors or throws — the rate limiter fails closed, never allowing an action
through the quota on store failure. -/
theorem rate_limit_fails_closed (e : String) (actionType : String) (custom : Option Limits) :
    checkRateLimit (Except.error e) = false ∧
    checkAdvancedRateLimit actionType custom (fun _ => Except.error e) = false :=
  ⟨rfl, rfl⟩

/-- C10: when the fingerprint lookup finds no Identity record, the
record-reading detectors (multi-account reuse, bot signals, device anomalies)
all return the fixed empty result — not suspicious, risk 0, severity 1,
confidence 0, empty reasons and patterns. -/
theorem missing_fingerprint_gives_empty_result (s : Store) (fpId : Nat)
    (h : findFingerprint s fpId = none) :
    detectMultiAccountReuse s fpId = createEmptyResult ∧
    detectBotSignals s fpId = createEmptyResult ∧
    detectDeviceAnomalies s fpId = createEmptyResult := by
  unfold detectMultiAccountReuse detectBotSignals detectDeviceAnomalies
  rw [h]
  exact ⟨rfl, rfl, rfl⟩

/-- Witness for C10: the empty store has no record for id 0, and each detector
returns the empty result there. -/
theorem missing_fingerprint_gives_empty_result_witness :
    findFingerprint ⟨[], [], [], []⟩ 0 = none ∧
    (detectMultiAccountReuse ⟨[], [], [], []⟩ 0 = createEmptyResult ∧
     detectBotSignals ⟨[], [], [], []⟩ 0 = createEmptyResult ∧
     detectDeviceAnomalies ⟨[], [], [], []⟩ 0 = createEmptyResult) :=
  ⟨rfl, missing_fingerprint_gives_empty_result ⟨[], [], [], []⟩ 0 rfl⟩

/-- C3: the aggregator equals the reference combination on every set of
detector outputs: total risk is the sum of the five detector scores plus
`anomalyScore * 5` clamped to at most 10; severity is the maximum (never the
sum) of the detectors' severities — in particular one severity-2 finding plus
one severity-4 finding yields 4; reasons and patterns are the deduplicated
unions; confidence is `min(total/10, 1)`. -/
theorem aggregator_reference_combination (ma v cf bot da : FraudDetectionResult)
    (ml : AnomalyDetectionResult) :
    (combineDetections ma v cf bot da ml).riskScore =
      min (ma.riskScore + v.riskScore + cf.riskScore + bot.riskScore + da.riskScore +
        ml.anomalyScore * 5) 10 ∧
    (combineDetections ma v cf bot da ml).severity =
      max ma.severity (max v.severity (max cf.severity (max bot.severity da.severity))) ∧
    (∀ x, x ∈ (combineDetections ma v cf bot da ml).reasons ↔
      x ∈ ma.reasons ++ v.reasons ++ cf.reasons ++ bot.reasons ++ da.reasons) ∧
    (combineDetections ma v cf bot da ml).reasons.Nodup ∧
    (∀ x, x ∈ (combineDetections ma v cf bot da ml).patterns ↔
      x ∈ ma.patterns ++ v.patterns ++ cf.patterns ++ bot.patterns ++ da.patterns) ∧
    (combineDetections ma v cf bot da ml).patterns.Nodup ∧
    (combineDetections ma v cf bot da ml).confidence =
      min ((combineDetections ma v cf bot da ml).riskScore / 10) 1 ∧
    (combineDetections { createEmptyResult with riskScore := 2, severity := 2 }
      { createEmptyResult with riskScore := 4, severity := 4 }
      createEmptyResult createEmptyResult createEmptyResult ⟨false, 0⟩).severity = 4 := by
  refine ⟨rfl, rfl, fun x => mem_jsDedup x _, nodup_jsDedup _,
    fun x => mem_jsDedup x _, nodup_jsDedup _, rfl, by decide⟩

/-- A guarded contribution is non-negative when its value is. -/
theorem ite_zero_nonneg (c : Prop) [Decidable c] (a : ℚ) (ha : 0 ≤ a) :
    0 ≤ if c then a else 0 := by
  split
  · exact ha
  · exact le_refl 0

/-- The multi-account detector never contributes a negative risk score. -/
theorem detectMultiAccountReuse_nonneg (s : Store) (fpId : Nat) :
    0 ≤ (detectMultiAccountReuse s fpId).riskScore := by
  unfold detectMultiAccountReuse
  rcases h : findFingerprint s fpId with _ | fp
  · exact le_refl 0
  · exact add_nonneg (ite_zero_nonneg _ _ (by norm_num)) (ite_zero_nonneg _ _ (by norm_num))

/-- The velocity detector never contributes a negative risk score. -/
theorem detectHighVelocity_nonneg (s : Store) (fpId : Nat) (now : Int) :
    0 ≤ (detectHighVelocity s fpId now).riskScore := by
  unfold detectHighVelocity
  exact add_nonneg (by split_ifs <;> norm_num) (ite_zero_nonneg _ _ (by norm_num))

/-- The click-fraud detector never contributes a negative risk score. -/
theorem detectClickFraud_nonneg (s : Store) (fpId : Nat) (now : Int) :
    0 ≤ (detectClickFraud s fpId now).riskScore := by
  unfold detectClickFraud
  dsimp only
  split
  · exact add_nonneg (add_nonneg (ite_zero_nonneg _ _ (by norm_num))
      (ite_zero_nonneg _ _ (by norm_num))) (ite_zero_nonneg _ _ (by norm_num))
  · exact le_refl 0

/-- The bot-signal detector never contributes a negative risk score. -/
theorem detectBotSignals_nonneg (s : Store) (fpId : Nat) :
    0 ≤ (detectBotSignals s fpId).riskScore := by
  unfold detectBotSignals
  rcases h : findFingerprint s fpId with _ | fp
  · exact le_refl 0
  · dsimp only
    rcases h2 : fp.deviceInfo with _ | di
    · exact le_refl 0
    · exact add_nonneg (add_nonneg (add_nonneg (add_nonneg (add_nonneg (add_nonneg
        (add_nonneg (ite_zero_nonneg _ _ (by norm_num)) (ite_zero_nonneg _ _ (by norm_num)))
        (ite_zero_nonneg _ _ (by norm_num))) (ite_zero_nonneg _ _ (by norm_num)))
        (ite_zero_nonneg _ _ (by norm_num))) (ite_zero_nonneg _ _ (by norm_num)))
        (ite_zero_nonneg _ _ (by norm_num))) (ite_zero_nonneg _ _ (by norm_num))

/-- The device-anomaly detector never contributes a negative risk score. -/
theorem detectDeviceAnomalies_nonneg (s : Store) (fpId : Nat) :
    0 ≤ (detectDeviceAnomalies s fpId).riskScore := by
  unfold detectDeviceAnomalies
  rcases h : findFingerprint s fpId with _ | fp
  · exact le_refl 0
  · dsimp only
    rcases h2 : fp.deviceInfo with _ | di <;> rcases h3 : fp.browserInfo with _ | bi
    · exact le_refl 0
    · exact le_refl 0
    · exact le_refl 0
    · exact add_nonneg (add_nonneg (add_nonneg (add_nonneg
        (ite_zero_nonneg _ _ (by norm_num)) (ite_zero_nonneg _ _ (by norm_num)))
        (ite_zero_nonneg _ _ (by norm_num))) (ite_zero_nonneg _ _ (by norm_num)))
        (ite_zero_nonneg _ _ (by norm_num))

/-- The ML anomaly score is always within the unit interval. -/
theorem detectMLAnomalies_bounds (s : Store) (fpId : Nat) :
    0 ≤ (detectMLAnomalies s fpId).anomalyScore ∧
    (detectMLAnomalies s fpId).anomalyScore ≤ 1 := by
  unfold detectMLAnomalies
  rcases h : findFingerprint s fpId with _ | fp
  · exact ⟨le_refl 0, by norm_num⟩
  · dsimp only
    constructor
    · refine le_min ?_ (by norm_num)
      refine add_nonneg (add_nonneg (add_nonneg ?_ ?_) ?_) (ite_zero_nonneg _ _ (by positivity))
      · rcases h2 : fp.deviceInfo with _ | di
        · exact le_refl 0
        · exact ite_zero_nonneg _ _ (by norm_num)
      · rcases h2 : fp.deviceInfo with _ | di
        · exact le_refl 0
        · exact ite_zero_nonneg _ _ (by positivity)
      · rcases h2 : fp.deviceInfo with _ | di
        · exact le_refl 0
        · dsimp only
          rcases h3 : di.screenRes with _ | wh
          · exact le_refl 0
          · rcases wh with ⟨w, hh⟩
            exact ite_zero_nonneg _ _ (by norm_num)
    · exact min_le_right _ _

/-- C2 amended: the aggregate evaluation's risk score lies in `[0, 10]` and
its ML anomaly score in `[0, 1]`, and the SQL `calculate_risk_score` result
lies in `[0, 10]`, no matter how many detectors fire or how much history
exists.  (The URL+fingerprint combination `performFraudDetection` is NOT
clamped — see its counterexample.) -/
theorem risk_and_ml_scores_bounded (s : Store) (fpId : Nat) (now : Int) :
    0 ≤ (performComprehensiveDetection s fpId now).riskScore ∧
    (performComprehensiveDetection s fpId now).riskScore ≤ 10 ∧
    0 ≤ (performComprehensiveDetection s fpId now).mlScore.getD 0 ∧
    (performComprehensiveDetection s fpId now).mlScore.getD 0 ≤ 1 ∧
    0 ≤ (detectMLAnomalies s fpId).anomalyScore ∧
    (detectMLAnomalies s fpId).anomalyScore ≤ 1 ∧
    calculate_risk_score s fpId now ≤ 10 := by
  have hml := detectMLAnomalies_bounds s fpId
  have hgetD : (performComprehensiveDetection s fpId now).mlScore.getD 0 =
      (detectMLAnomalies s fpId).anomalyScore := rfl
  refine ⟨?_, ?_, ?_, ?_, hml.1, hml.2, ?_⟩
  · refine le_min ?_ (by norm_num)
    refine add_nonneg (add_nonneg (add_nonneg (add_nonneg (add_nonneg
      (detectMultiAccountReuse_nonneg s fpId) (detectHighVelocity_nonneg s fpId now))
      (detectClickFraud_nonneg s fpId now)) (detectBotSignals_nonneg s fpId))
      (detectDeviceAnomalies_nonneg s fpId)) (mul_nonneg hml.1 (by norm_num))
  · exact min_le_right _ _
  · rw [hgetD]; exact hml.1
  · rw [hgetD]; exact hml.2
  · exact min_le_right _ _

/-- The C2 counterexample store: one Identity with eleven stored risk-log
rows and no other activity. -/
def c2Store : Store :=
  ⟨[⟨1, "v", none, none, 0⟩], [], [], List.replicate 11 ⟨1, "spam_attempt", 1, 0⟩⟩

/-- Counterexample to C2 as stated: `performFraudDetection` adds the raw
count of recent risk logs to its combined score without clamping, so with
eleven stored risk logs (and a clean URL) the returned risk score is 11,
outside `[0, 10]`. -/
theorem combined_risk_score_exceeds_ten :
    (performFraudDetection ⟨false, 0, [], 1⟩ c2Store 1 0).riskScore = 11 ∧
    ¬ ((performFraudDetection ⟨false, 0, [], 1⟩ c2Store 1 0).riskScore ≤ 10) := by
  have h : (performFraudDetection ⟨false, 0, [], 1⟩ c2Store 1 0).riskScore = 11 := by
    norm_num [performFraudDetection, detectSuspiciousFingerprint, findFingerprint,
      c2Store, List.find?, List.filter, List.replicate]
  exact ⟨h, by rw [h]; norm_num⟩

/-- C6 amended: over the trailing 24-hour visits, `detectClickFraud`
contributes +3 at severity 3 (`high_visit_volume`) exactly when there are
more than 100 visits; +2 at severity 2 (`rapid_clicking`) exactly when MORE
THAN FIVE adjacent visit pairs are under 5 seconds apart (so at least seven
consecutive rapid visits are needed, not six — six consecutive visits give
only five such pairs); and +2 at severity 2 (`direct_access`) exactly when
the no-referrer count exceeds 0.8 of the visit total. -/
theorem click_fraud_policy (s : Store) (fpId : Nat) (now : Int) :
    (detectClickFraud s fpId now).riskScore =
      (if 100 < (recentVisits s fpId now).length then 3 else 0) +
      (if 5 < rapidClickCount (recentVisits s fpId now) then 2 else 0) +
      (if ((recentVisits s fpId now).length : ℚ) * (8 / 10) <
        (directAccessCount (recentVisits s fpId now) : ℚ) then 2 else 0) ∧
    (detectClickFraud s fpId now).patterns =
      (if 100 < (recentVisits s fpId now).length then ["high_visit_volume"] else []) ++
      (if 5 < rapidClickCount (recentVisits s fpId now) then ["rapid_clicking"] else []) ++
      (if ((recentVisits s fpId now).length : ℚ) * (8 / 10) <
        (directAccessCount (recentVisits s fpId now) : ℚ) then ["direct_access"] else []) ∧
    (detectClickFraud s fpId now).severity =
      max (max (if 100 < (recentVisits s fpId now).length then 3 else 1)
        (if 5 < rapidClickCount (recentVisits s fpId now) then 2 else 1))
        (if ((recentVisits s fpId now).length : ℚ) * (8 / 10) <
          (directAccessCount (recentVisits s fpId now) : ℚ) then 2 else 1) := by
  unfold detectClickFraud
  dsimp only
  split
  · exact ⟨rfl, rfl, rfl⟩
  · rename_i hlen
    have hnil : recentVisits s fpId now = [] :=
      List.length_eq_zero.mp (Nat.eq_zero_of_not_pos hlen)
    rw [hnil]
    norm_num [rapidClickCount, directAccessCount, interGaps]

/-- The C6 counterexample store: six visits one second apart, each with a
referrer. -/
def c6Store : Store :=
  ⟨[], [],
   [⟨1, 1, 0, some "r"⟩, ⟨1, 1, 1000, some "r"⟩, ⟨1, 1, 2000, some "r"⟩,
    ⟨1, 1, 3000, some "r"⟩, ⟨1, 1, 4000, some "r"⟩, ⟨1, 1, 5000, some "r"⟩], []⟩

/-- Counterexample to C6 as stated: `c6Store` holds exactly six consecutive
visits whose five inter-arrival gaps are all 1000 ms (< 5 s) — the claim's
"at least 6 consecutive visits with gaps under 5 seconds" — yet the detector
emits no `rapid_clicking` pattern and zero risk, because five qualifying
pairs do not exceed the code's `> 5` threshold. -/
theorem rapid_clicking_counterexample :
    (recentVisits c6Store 1 5000).length = 6 ∧
    interGaps ((recentVisits c6Store 1 5000).map (fun v => v.visitedAt)) =
      [1000, 1000, 1000, 1000, 1000] ∧
    "rapid_clicking" ∉ (detectClickFraud c6Store 1 5000).patterns ∧
    (detectClickFraud c6Store 1 5000).riskScore = 0 := by
  have h : detectClickFraud c6Store 1 5000 =
      { isSuspicious := false, riskScore := 0, reasons := [], severity := 1
        confidence := 0, patterns := [], mlScore := none } := by
    norm_num [detectClickFraud, recentVisits, rapidClickCount, directAccessCount,
      interGaps, jsTimeGaps, c6Store, List.filter, min_def,
      (by decide : strFalsy (some "r") = false)]
  refine ⟨by decide, by decide, by rw [h]; simp, by rw [h]⟩

/-- C5: `detectHighVelocity` applies exactly the tier policy on the trailing
hour's `url_creation` count — `>20` gives +4 at severity 4 (`extreme_velocity`),
`>10` gives +3 at severity 3, `>5` gives +2 at severity 2, only the highest
matching tier — and whenever four consecutive timestamps have all three
inter-arrival gaps under 60 s, the `burst_pattern` bonus of +2 fires (the
index-0 map entry is the constant gap 0, so three qualifying real gaps push
the filtered count over the code's `> 3` threshold), stacking with the tier
score and forcing severity at least 2. -/
theorem velocity_policy (s : Store) (fpId : Nat) (now : Int) :
    (detectHighVelocity s fpId now).riskScore =
      (if 20 < (recentUrlTimes s fpId now).length then 4
       else if 10 < (recentUrlTimes s fpId now).length then 3
       else if 5 < (recentUrlTimes s fpId now).length then 2 else 0) +
      (if 3 < burstGapCount (recentUrlTimes s fpId now) then 2 else 0) ∧
    (detectHighVelocity s fpId now).patterns =
      (if 20 < (recentUrlTimes s fpId now).length then ["extreme_velocity"]
       else if 10 < (recentUrlTimes s fpId now).length then ["high_velocity"]
       else if 5 < (recentUrlTimes s fpId now).length then ["moderate_velocity"] else []) ++
      (if 3 < burstGapCount (recentUrlTimes s fpId now) then ["burst_pattern"] else []) ∧
    (detectHighVelocity s fpId now).severity =
      (if 3 < burstGapCount (recentUrlTimes s fpId now) then
        max (if 20 < (recentUrlTimes s fpId now).length then 4
          else if 10 < (recentUrlTimes s fpId now).length then 3
          else if 5 < (recentUrlTimes s fpId now).length then 2 else 1) 2
       else (if 20 < (recentUrlTimes s fpId now).length then 4
          else if 10 < (recentUrlTimes s fpId now).length then 3
          else if 5 < (recentUrlTimes s fpId now).length then 2 else 1)) ∧
    (∀ (l1 l2 : List Int) (g1 g2 g3 : Int),
      interGaps (recentUrlTimes s fpId now) = l1 ++ g1 :: g2 :: g3 :: l2 →
      g1 < 60000 → g2 < 60000 → g3 < 60000 →
      3 < burstGapCount (recentUrlTimes s fpId now) ∧
      "burst_pattern" ∈ (detectHighVelocity s fpId now).patterns ∧
      2 ≤ (detectHighVelocity s fpId now).severity) := by
  have e2 : (detectHighVelocity s fpId now).patterns =
      (if 20 < (recentUrlTimes s fpId now).length then ["extreme_velocity"]
       else if 10 < (recentUrlTimes s fpId now).length then ["high_velocity"]
       else if 5 < (recentUrlTimes s fpId now).length then ["moderate_velocity"] else []) ++
      (if 3 < burstGapCount (recentUrlTimes s fpId now) then ["burst_pattern"] else []) := rfl
  have e3 : (detectHighVelocity s fpId now).severity =
      (if 3 < burstGapCount (recentUrlTimes s fpId now) then
        max (if 20 < (recentUrlTimes s fpId now).length then 4
          else if 10 < (recentUrlTimes s fpId now).length then 3
          else if 5 < (recentUrlTimes s fpId now).length then 2 else 1) 2
       else (if 20 < (recentUrlTimes s fpId now).length then 4
          else if 10 < (recentUrlTimes s fpId now).length then 3
          else if 5 < (recentUrlTimes s fpId now).length then 2 else 1)) := rfl
  refine ⟨rfl, e2, e3, ?_⟩
  intro l1 l2 g1 g2 g3 heq h1 h2 h3
  have hne : recentUrlTimes s fpId now ≠ [] := by
    intro h0
    rw [h0] at heq
    simp [interGaps] at heq
  have hburst : 3 < burstGapCount (recentUrlTimes s fpId now) := by
    unfold burstGapCount
    have hjs : jsTimeGaps (recentUrlTimes s fpId now) =
        0 :: interGaps (recentUrlTimes s fpId now) := by
      rcases hcase : recentUrlTimes s fpId now with _ | ⟨a, r⟩
      · exact absurd hcase hne
      · rfl
    rw [hjs, heq]
    simp only [List.filter_cons, List.filter_append, List.length_append, List.length_cons]
    norm_num [h1, h2, h3]
    omega
  refine ⟨hburst, ?_, ?_⟩
  · rw [e2, if_pos hburst]
    exact List.mem_append_right _ (List.mem_singleton.mpr rfl)
  · rw [e3, if_pos hburst]
    exact le_max_right _ _

/-- The C5 witness store: four URL creations ten seconds apart within the
trailing hour. -/
def w5Store : Store :=
  ⟨[], [⟨1, 0, true⟩, ⟨1, 10000, true⟩, ⟨1, 20000, true⟩, ⟨1, 30000, true⟩], [], []⟩

/-- Witness for C5: four consecutive creations with 10-second gaps trigger
the burst-pattern bonus. -/
theorem velocity_policy_witness :
    3 < burstGapCount (recentUrlTimes w5Store 1 30000) ∧
    "burst_pattern" ∈ (detectHighVelocity w5Store 1 30000).patterns ∧
    2 ≤ (detectHighVelocity w5Store 1 30000).severity :=
  (velocity_policy w5Store 1 30000).2.2.2 [] [] 10000 10000 10000
    (by decide) (by decide) (by decide) (by decide)

/-- Calls within the window starting at `t1`, from a row with `a ≤ 10`
attempts: each call is allowed while the counter is below 10 and denied
afterwards, the counter stops at 10, and `window_start` never moves. -/
theorem runRateLimit_within (win t1 : Int) :
    ∀ (calls : List Int) (a : Nat), a ≤ 10 → (∀ t ∈ calls, t - t1 ≤ win) →
    runRateLimit calls 10 win (some (a, t1)) =
      (List.replicate (min calls.length (10 - a)) true ++
       List.replicate (calls.length - (10 - a)) false,
       some (min (a + calls.length) 10, t1))
  | [], a, ha, _ => by
    simp [runRateLimit, Nat.min_eq_left ha]
  | t :: rest, a, ha, hw => by
    have hnex : ¬ (t1 < t - win) := by
      have := hw t (List.mem_cons_self _ _)
      omega
    by_cases h10 : 10 ≤ a
    · have ha10 : a = 10 := le_antisymm ha h10
      subst ha10
      have hstep : check_rate_limit (some (10, t1)) 10 win t = (false, some (10, t1)) := by
        simp [check_rate_limit, hnex]
      simp only [runRateLimit, hstep]
      rw [runRateLimit_within win t1 rest 10 (le_refl 10)
        (fun x hx => hw x (List.mem_cons_of_mem _ hx))]
      simp [List.replicate_succ]
    · push_neg at h10
      have hstep : check_rate_limit (some (a, t1)) 10 win t = (true, some (a + 1, t1)) := by
        simp [check_rate_limit, hnex, Nat.not_le.mpr h10]
      simp only [runRateLimit, hstep]
      rw [runRateLimit_within win t1 rest (a + 1) (by omega)
        (fun x hx => hw x (List.mem_cons_of_mem _ hx))]
      rw [show (10 : Nat) - a = (10 - (a + 1)) + 1 by omega]
      rw [List.length_cons, Nat.succ_min_succ, Nat.succ_sub_succ, List.replicate_succ]
      rw [show a + (rest.length + 1) = a + 1 + rest.length by omega]
      simp

/-- C4: with `maxAttempts = 10`, eleven calls within one window (the first at
`t1` creating the row) return `true` ten times then `false`; the denied call
leaves the row at `(10, t1)` (no increment — and any non-expired denied call
leaves its row untouched); and once the window has elapsed the next call
returns `true` with a freshly started window `(1, now)`. -/
theorem rate_limiter_boundary (win t1 : Int) (rest : List Int) (hlen : rest.length = 10)
    (hw : ∀ t ∈ rest, t - t1 ≤ win) :
    (runRateLimit (t1 :: rest) 10 win none).1 = List.replicate 10 true ++ [false] ∧
    (runRateLimit (t1 :: rest) 10 win none).2 = some (10, t1) ∧
    (∀ (a : Nat) (w now : Int), 10 ≤ a → ¬ (w < now - win) →
      check_rate_limit (some (a, w)) 10 win now = (false, some (a, w))) ∧
    (∀ now : Int, win < now - t1 →
      check_rate_limit (some (10, t1)) 10 win now = (true, some (1, now))) := by
  have hfirst : check_rate_limit none 10 win t1 = (true, some (1, t1)) := by
    simp [check_rate_limit]
  have hrun : runRateLimit (t1 :: rest) 10 win none =
      (true :: (List.replicate (min rest.length (10 - 1)) true ++
        List.replicate (rest.length - (10 - 1)) false),
       some (min (1 + rest.length) 10, t1)) := by
    simp only [runRateLimit, hfirst]
    rw [runRateLimit_within win t1 rest 1 (by omega) hw]
  rw [hrun, hlen]
  refine ⟨by simp [List.replicate_succ], by simp, ?_, ?_⟩
  · intro a w now h10 hnex
    simp [check_rate_limit, hnex, h10]
  · intro now hexp
    have h : t1 < now - win := by omega
    simp [check_rate_limit, h]

/-- Witness for C4: eleven calls at times 0..10 inside a 60-unit window give
ten allows then one deny with the row stuck at 10 attempts, and a later call
at time 100 restarts the window. -/
theorem rate_limiter_boundary_witness :
    (runRateLimit [0, 1, 2, 3, 4, 5, 6, 7, 8, 9, 10] 10 60 none).1 =
      List.replicate 10 true ++ [false] ∧
    (runRateLimit [0, 1, 2, 3, 4, 5, 6, 7, 8, 9, 10] 10 60 none).2 = some (10, 0) ∧
    check_rate_limit (some (10, 0)) 10 60 100 = (true, some (1, 100)) := by
  obtain ⟨a, b, _, d⟩ :=
    rate_limiter_boundary 60 0 [1, 2, 3, 4, 5, 6, 7, 8, 9, 10] (by decide) (by decide)
  exact ⟨a, b, d 100 (by decide)⟩

/-- With unique row ids, `find?` on an id returns the member itself. -/
theorem find_of_mem_nodup : ∀ (l : List Fingerprint) (fp : Fingerprint), fp ∈ l →
    (l.map Fingerprint.fid).Nodup → l.find? (fun f => decide (f.fid = fp.fid)) = some fp
  | [], fp, hmem, _ => absurd hmem (List.not_mem_nil fp)
  | g :: rest, fp, hmem, hnd => by
    rw [List.map_cons, List.nodup_cons] at hnd
    rcases List.mem_cons.mp hmem with rfl | hmem'
    · simp [List.find?]
    · have hne : ¬ (g.fid = fp.fid) := by
        intro he
        exact hnd.1 (he ▸ List.mem_map_of_mem Fingerprint.fid hmem')
      simp only [List.find?]
      rw [decide_eq_false hne]
      exact find_of_mem_nodup rest fp hmem' hnd.2

/-- A list with two distinct members has length at least two. -/
theorem one_lt_length_of_two_mem {α : Type} : ∀ (l : List α) (a b : α),
    a ∈ l → b ∈ l → a ≠ b → 1 < l.length
  | [], a, _, ha, _, _ => absurd ha (List.not_mem_nil a)
  | x :: xs, a, b, ha, hb, hab => by
    rcases List.mem_cons.mp ha with rfl | ha'
    · have hb' : b ∈ xs := by
        rcases List.mem_cons.mp hb with rfl | hb'
        · exact absurd rfl hab
        · exact hb'
      simp only [List.length_cons]
      have := List.length_pos_of_mem hb'
      omega
    · simp only [List.length_cons]
      have := List.length_pos_of_mem ha'
      omega

/-- Arithmetic helper: a sum containing a 4 and non-negative rests is at least 4. -/
theorem four_le_sum (a b c d : ℚ) (ha : 0 ≤ a) (hb : 0 ≤ b) (hc : 0 ≤ c) (hd : 0 ≤ d) :
    4 ≤ a + b + 4 + c + d := by linarith

/-- C8: whenever two distinct Identity records share a `visitor_id`,
evaluating either one yields the `duplicate_fingerprint` pattern, severity
exactly 4, and a risk score of exactly 4 plus only the independent
similar-device contribution; the `fraudDetection.ts` variant likewise
contributes at least 4 to its risk score. -/
theorem duplicate_fingerprint_policy (s : Store) (now : Int) (fpA fpB : Fingerprint)
    (hA : fpA ∈ s.fingerprints) (hB : fpB ∈ s.fingerprints)
    (hne : fpA.fid ≠ fpB.fid) (hv : fpA.visitorId = fpB.visitorId)
    (hnd : (s.fingerprints.map Fingerprint.fid).Nodup) :
    "duplicate_fingerprint" ∈ (detectMultiAccountReuse s fpA.fid).patterns ∧
    (detectMultiAccountReuse s fpA.fid).severity = 4 ∧
    (detectMultiAccountReuse s fpA.fid).riskScore = 4 +
      (match fpA.deviceInfo with
       | none => 0
       | some di => if 2 < similarCountOf s di fpA.fid then 3 else 0) ∧
    4 ≤ (detectSuspiciousFingerprint s fpA.fid now).riskScore := by
  have hfind : findFingerprint s fpA.fid = some fpA := find_of_mem_nodup _ _ hA hnd
  have hdup : 0 < duplicateCountOf s fpA fpA.fid := by
    unfold duplicateCountOf
    exact List.length_pos_of_mem
      (List.mem_filter.mpr ⟨hB, decide_eq_true ⟨hv.symm, Ne.symm hne⟩⟩)
  refine ⟨?_, ?_, ?_, ?_⟩
  · show "duplicate_fingerprint" ∈ (detectMultiAccountReuse s fpA.fid).patterns
    unfold detectMultiAccountReuse
    rw [hfind]
    dsimp only
    rw [if_pos hdup]
    exact List.mem_append_left _ (List.mem_singleton.mpr rfl)
  · unfold detectMultiAccountReuse
    rw [hfind]
    dsimp only
    rw [if_pos hdup]
    split <;> decide
  · unfold detectMultiAccountReuse
    rw [hfind]
    dsimp only
    rw [if_pos hdup]
    rcases hdev : fpA.deviceInfo with _ | di <;> simp
  · unfold detectSuspiciousFingerprint
    dsimp only
    have hdupB : (match findFingerprint s fpA.fid with
        | some fp => decide (1 <
            (s.fingerprints.filter (fun g => decide (g.visitorId = fp.visitorId))).length)
        | none => false) = true := by
      rw [hfind]
      refine decide_eq_true ?_
      refine one_lt_length_of_two_mem _ fpA fpB
        (List.mem_filter.mpr ⟨hA, decide_eq_true rfl⟩)
        (List.mem_filter.mpr ⟨hB, decide_eq_true hv.symm⟩) ?_
      intro h
      exact hne (congrArg Fingerprint.fid h)
    rw [hdupB]
    simp only [if_pos rfl]
    refine four_le_sum _ _ _ _ ?_ (ite_zero_nonneg _ _ (by norm_num))
      (ite_zero_nonneg _ _ (by norm_num)) (by positivity)
    split_ifs <;> norm_num

/-- The C8 witness store: two Identity records with ids 1 and 2 sharing
visitor id "v". -/
def w8Store : Store := ⟨[⟨1, "v", none, none, 0⟩, ⟨2, "v", none, none, 0⟩], [], [], []⟩

/-- Witness for C8: evaluating id 1 of `w8Store` flags the duplicate
fingerprint at severity 4. -/
theorem duplicate_fingerprint_policy_witness :
    "duplicate_fingerprint" ∈ (detectMultiAccountReuse w8Store 1).patterns ∧
    (detectMultiAccountReuse w8Store 1).severity = 4 := by
  have h := duplicate_fingerprint_policy w8Store 0
    ⟨1, "v", none, none, 0⟩ ⟨2, "v", none, none, 0⟩
    (List.mem_cons_self _ _) (List.mem_cons_of_mem _ (List.mem_cons_self _ _))
    (by decide) rfl (by decide)
  exact ⟨h.1, h.2.1⟩

/-- The trigger update leaves the row id unchanged. -/
theorem scoreUpd_fid (j : Nat) (q : ℚ) (f : Fingerprint) : (scoreUpd j q f).fid = f.fid := by
  unfold scoreUpd; split <;> rfl

/-- The trigger update leaves `visitor_id` unchanged. -/
theorem scoreUpd_visitorId (j : Nat) (q : ℚ) (f : Fingerprint) :
    (scoreUpd j q f).visitorId = f.visitorId := by
  unfold scoreUpd; split <;> rfl

/-- The trigger update leaves `device_info` unchanged. -/
theorem scoreUpd_deviceInfo (j : Nat) (q : ℚ) (f : Fingerprint) :
    (scoreUpd j q f).deviceInfo = f.deviceInfo := by
  unfold scoreUpd; split <;> rfl

/-- The trigger update leaves `browser_info` unchanged. -/
theorem scoreUpd_browserInfo (j : Nat) (q : ℚ) (f : Fingerprint) :
    (scoreUpd j q f).browserInfo = f.browserInfo := by
  unfold scoreUpd; split <;> rfl

/-- Looking a row up by id commutes with the trigger update. -/
theorem find?_map_scoreUpd (l : List Fingerprint) (j : Nat) (q : ℚ) (i : Nat) :
    (l.map (scoreUpd j q)).find? (fun f => decide (f.fid = i)) =
    Option.map (scoreUpd j q) (l.find? (fun f => decide (f.fid = i))) := by
  induction l with
  | nil => rfl
  | cons g rest ih =>
    simp only [List.map_cons, List.find?, scoreUpd_fid]
    cases hgi : decide (g.fid = i)
    · exact ih
    · rfl

/-- Filter counts are unchanged by the trigger update when the predicate
ignores `risk_score`. -/
theorem filter_map_scoreUpd_length (l : List Fingerprint) (j : Nat) (q : ℚ)
    (p p' : Fingerprint → Bool) (hp : ∀ f, p (scoreUpd j q f) = p' f) :
    ((l.map (scoreUpd j q)).filter p).length = (l.filter p').length := by
  induction l with
  | nil => rfl
  | cons g rest ih =>
    simp only [List.map_cons, List.filter_cons, hp]
    cases hpg : p' g <;> simp [ih]

/-- The multi-account detector ignores `risk_score` columns and risk logs. -/
theorem detectMultiAccountReuse_scoreUpd (fps : List Fingerprint) (urls : List UrlRec)
    (visits : List VisitRec) (logs logs' : List RiskLog) (j : Nat) (q : ℚ) (i : Nat) :
    detectMultiAccountReuse ⟨fps.map (scoreUpd j q), urls, visits, logs'⟩ i =
    detectMultiAccountReuse ⟨fps, urls, visits, logs⟩ i := by
  unfold detectMultiAccountReuse findFingerprint
  dsimp only
  rw [find?_map_scoreUpd]
  cases hf : fps.find? (fun f => decide (f.fid = i)) with
  | none => rfl
  | some fp =>
    dsimp only [Option.map_some']
    have hdup : duplicateCountOf ⟨fps.map (scoreUpd j q), urls, visits, logs'⟩
        (scoreUpd j q fp) i = duplicateCountOf ⟨fps, urls, visits, logs⟩ fp i := by
      unfold duplicateCountOf
      dsimp only
      refine filter_map_scoreUpd_length fps j q _ _ (fun g => ?_)
      rw [scoreUpd_visitorId, scoreUpd_fid, scoreUpd_visitorId]
    have hsim : ∀ di, similarCountOf ⟨fps.map (scoreUpd j q), urls, visits, logs'⟩ di i =
        similarCountOf ⟨fps, urls, visits, logs⟩ di i := by
      intro di
      unfold similarCountOf
      dsimp only
      refine filter_map_scoreUpd_length fps j q _ _ (fun g => ?_)
      rw [scoreUpd_fid]
      unfold matchesDevice
      rw [scoreUpd_deviceInfo]
    rw [hdup, scoreUpd_deviceInfo]
    cases hdev : fp.deviceInfo with
    | none => rfl
    | some di =>
      dsimp only
      rw [hsim di]

/-- The bot-signal detector ignores `risk_score` columns and risk logs. -/
theorem detectBotSignals_scoreUpd (fps : List Fingerprint) (urls : List UrlRec)
    (visits : List VisitRec) (logs logs' : List RiskLog) (j : Nat) (q : ℚ) (i : Nat) :
    detectBotSignals ⟨fps.map (scoreUpd j q), urls, visits, logs'⟩ i =
    detectBotSignals ⟨fps, urls, visits, logs⟩ i := by
  unfold detectBotSignals findFingerprint
  dsimp only
  rw [find?_map_scoreUpd]
  cases hf : fps.find? (fun f => decide (f.fid = i)) with
  | none => rfl
  | some fp =>
    dsimp only [Option.map_some']
    rw [scoreUpd_deviceInfo]

/-- The device-anomaly detector ignores `risk_score` columns and risk logs. -/
theorem detectDeviceAnomalies_scoreUpd (fps : List Fingerprint) (urls : List UrlRec)
    (visits : List VisitRec) (logs logs' : List RiskLog) (j : Nat) (q : ℚ) (i : Nat) :
    detectDeviceAnomalies ⟨fps.map (scoreUpd j q), urls, visits, logs'⟩ i =
    detectDeviceAnomalies ⟨fps, urls, visits, logs⟩ i := by
  unfold detectDeviceAnomalies findFingerprint
  dsimp only
  rw [find?_map_scoreUpd]
  cases hf : fps.find? (fun f => decide (f.fid = i)) with
  | none => rfl
  | some fp =>
    dsimp only [Option.map_some']
    rw [scoreUpd_deviceInfo, scoreUpd_browserInfo]

/-- The ML detector ignores `risk_score` columns and risk logs. -/
theorem detectMLAnomalies_scoreUpd (fps : List Fingerprint) (urls : List UrlRec)
    (visits : List VisitRec) (logs logs' : List RiskLog) (j : Nat) (q : ℚ) (i : Nat) :
    detectMLAnomalies ⟨fps.map (scoreUpd j q), urls, visits, logs'⟩ i =
    detectMLAnomalies ⟨fps, urls, visits, logs⟩ i := by
  unfold detectMLAnomalies findFingerprint
  dsimp only
  rw [find?_map_scoreUpd]
  cases hf : fps.find? (fun f => decide (f.fid = i)) with
  | none => rfl
  | some fp =>
    dsimp only [Option.map_some']
    rw [scoreUpd_deviceInfo, scoreUpd_browserInfo]

/-- The velocity detector reads only the `urls` table. -/
theorem detectHighVelocity_fps (fps fps' : List Fingerprint) (urls : List UrlRec)
    (visits : List VisitRec) (logs logs' : List RiskLog) (i : Nat) (now : Int) :
    detectHighVelocity ⟨fps', urls, visits, logs'⟩ i now =
    detectHighVelocity ⟨fps, urls, visits, logs⟩ i now := rfl

/-- The click-fraud detector reads only the `url_visits` table. -/
theorem detectClickFraud_fps (fps fps' : List Fingerprint) (urls : List UrlRec)
    (visits : List VisitRec) (logs logs' : List RiskLog) (i : Nat) (now : Int) :
    detectClickFraud ⟨fps', urls, visits, logs'⟩ i now =
    detectClickFraud ⟨fps, urls, visits, logs⟩ i now := rfl

/-- C7 amended: the comprehensive evaluation is a pure function of the
fingerprint/urls/visits snapshot: re-evaluating after its own write-back
(the RiskEvent insert plus the `update_risk_score` trigger) yields the
identical result, because no detector reads `risk_logs` or the stored
`risk_score` column.  (`performFraudDetection` of `fraudDetection.ts` is NOT
idempotent — see its counterexample.) -/
theorem comprehensive_detection_idempotent (s : Store) (fpId : Nat) (now : Int) :
    performComprehensiveDetection (comprehensiveDetectionStep s fpId now) fpId now =
    performComprehensiveDetection s fpId now := by
  obtain ⟨fps, urls, visits, logs⟩ := s
  unfold comprehensiveDetectionStep
  dsimp only
  split
  · unfold applyRiskScoreTrigger
    dsimp only
    conv_lhs => unfold performComprehensiveDetection
    conv_rhs => unfold performComprehensiveDetection
    rw [detectMultiAccountReuse_scoreUpd fps urls visits logs,
      detectBotSignals_scoreUpd fps urls visits logs,
      detectDeviceAnomalies_scoreUpd fps urls visits logs,
      detectMLAnomalies_scoreUpd fps urls visits logs,
      detectHighVelocity_fps fps _ urls visits logs,
      detectClickFraud_fps fps _ urls visits logs]
  · rfl

/-- The URL sub-detector result for a benign URL (no spam domain, no
suspicious pattern, short): zero risk. -/
def benignUrlResult : BasicResult := ⟨false, 0, [], 1⟩

/-- The C7 counterexample store: one Identity with twelve URLs created two
hours ago and no risk logs. -/
def c7Store : Store :=
  ⟨[⟨1, "v", none, none, 0⟩], List.replicate 12 ⟨1, -7200000, true⟩, [], []⟩

/-- Counterexample to C7 as stated: on `c7Store` the first
`performFraudDetection` evaluation scores 3 (suspicious), its write-back
stores a RiskEvent, and the second evaluation counts that very event and
scores 4 — two successive evaluations with no external activity differ. -/
theorem fraud_detection_not_idempotent :
    (performFraudDetection benignUrlResult c7Store 1 0).riskScore = 3 ∧
    (performFraudDetection benignUrlResult
      (fraudDetectionStep benignUrlResult c7Store 1 0) 1 0).riskScore = 4 ∧
    performFraudDetection benignUrlResult
      (fraudDetectionStep benignUrlResult c7Store 1 0) 1 0 ≠
      performFraudDetection benignUrlResult c7Store 1 0 := by
  have h1 : (performFraudDetection benignUrlResult c7Store 1 0).riskScore = 3 := by
    norm_num [performFraudDetection, detectSuspiciousFingerprint, findFingerprint,
      benignUrlResult, c7Store, List.find?, List.filter, List.replicate]
  have h2 : (performFraudDetection benignUrlResult
      (fraudDetectionStep benignUrlResult c7Store 1 0) 1 0).riskScore = 4 := by
    norm_num [performFraudDetection, fraudDetectionStep, applyRiskScoreTrigger, scoreUpd,
      calculate_risk_score, detectSuspiciousFingerprint, findFingerprint,
      benignUrlResult, c7Store, List.find?, List.filter, List.replicate, min_def]
  refine ⟨h1, h2, fun he => ?_⟩
  rw [congrArg BasicResult.riskScore he, h1] at h2
  norm_num at h2
